import Mathlib

/-!
Shallow embedding of the reaction-toggle and stats endpoints of the
`social_network.posts` Django app (files `models.py`, `views.py`,
`serializers.py`), together with proofs of the specified properties.

Modelling conventions:
* Database rows become Lean structures; foreign keys (`user`, `post`,
  `author`) are carried as `Nat` identifiers, timestamps as `Nat` ticks.
* The relational store becomes an explicit `DBState` value threaded through
  the view functions; each view returns its HTTP response (and, for the
  mutating view, the successor state).
* JSON response bodies are association lists of string keys to a small
  JSON value type, so that theorems can talk about which fields a body has.
* `FloatField` coordinates are modelled over `Int` (no claim computes with
  them); image fields are elided, as no verified endpoint reads them.
-/

namespace SocialNetwork

/-- A JSON scalar as it appears in the response bodies of the two verified
endpoints (strings, numbers, null). -/
inductive JVal where
  | s (v : String)
  | n (v : Nat)
  | null
deriving DecidableEq, Repr

/-- A JSON object: an association list from field names to values. -/
abbrev JObj := List (String × JVal)

/-- An HTTP response: status code plus JSON body (`models.py` views return
`Response(...)`, DRF defaults the code to 200). -/
structure HttpResponse where
  code : Nat
  body : JObj
deriving DecidableEq, Repr

/-- `posts.models.Post`: author FK, text, optional coordinates and location
name, creation timestamp.  Image fields are elided (unused by the verified
endpoints); `FloatField` latitude/longitude are modelled over `Int`. -/
structure Post where
  id : Nat
  author : Nat
  text : String
  created_at : Nat
  latitude : Option Int
  longitude : Option Int
  location_name : String
deriving DecidableEq, Repr

/-- `posts.models.Like`: one user's reaction row on a post.  `reaction` is a
`CharField` with choices `like`/`dislike`; `id` is the auto primary key. -/
structure Like where
  id : Nat
  user : Nat
  post : Nat
  reaction : String
  created_at : Nat
deriving DecidableEq, Repr

/-- `Like.LIKE` constant from `models.py`. -/
def Like.LIKE : String := "like"

/-- `Like.DISLIKE` constant from `models.py`. -/
def Like.DISLIKE : String := "dislike"

/-- `posts.models.Comment`: author FK, post FK, text, creation timestamp. -/
structure Comment where
  id : Nat
  author : Nat
  post : Nat
  text : String
  created_at : Nat
deriving DecidableEq, Repr

/-- The relational store visible to the two verified endpoints: the `Post`,
`Like` and `Comment` tables, the next auto primary key for `Like`, and the
current clock used for `auto_now_add` timestamps. -/
structure DBState where
  posts : List Post
  reactions : List Like
  comments : List Comment
  nextLikeId : Nat
  now : Nat
deriving DecidableEq, Repr

/-- `get_object_or_404(Post, id=post_id)` succeeds iff some stored post has
the requested id. -/
def postExists (db : DBState) (postId : Nat) : Bool :=
  db.posts.any (fun post => post.id = postId)

/-- `Like.objects.get(...)` step of `get_or_create(user=..., post=...)`:
the stored reaction row for the pair, if any. -/
def findReaction (db : DBState) (userId postId : Nat) : Option Like :=
  db.reactions.find? (fun r => r.user = userId && r.post = postId)

/-- `LikeSerializer(like).data`: fields `id`, `user`, `post`, `reaction`,
`created_at` (`serializers.py`). -/
def likeSerializer (r : Like) : JObj :=
  [("id", JVal.n r.id), ("user", JVal.n r.user), ("post", JVal.n r.post),
   ("reaction", JVal.s r.reaction), ("created_at", JVal.n r.created_at)]

/-- The DRF body rendered by `get_object_or_404` on a miss. -/
def notFoundBody : JObj := [("detail", JVal.s "Not found.")]

/-- The 400 body from `toggle_like` on an invalid reaction kind
(`views.py` line 207). -/
def invalidReactionBody : JObj :=
  [("error", JVal.s "Неверная реакция. Используйте \"like\" или \"dislike\".")]

/-- `posts.views.toggle_like(request, post_id)`.  `userId` is
`request.user`; `reactionField` is `request.data.get('reaction', ...)`,
`none` when the field is absent from the request body.  Returns the HTTP
response and the successor store. -/
def toggle_like (db : DBState) (userId postId : Nat)
    (reactionField : Option String) : HttpResponse × DBState :=
  if postExists db postId = false then
    (⟨404, notFoundBody⟩, db)
  else
    let reaction := reactionField.getD Like.LIKE
    if reaction ≠ Like.LIKE ∧ reaction ≠ Like.DISLIKE then
      (⟨400, invalidReactionBody⟩, db)
    else
      match findReaction db userId postId with
      | none =>
          let newLike : Like :=
            ⟨db.nextLikeId, userId, postId, reaction, db.now⟩
          let inserted := db.reactions ++ [newLike]
          (⟨200, likeSerializer newLike⟩,
           { db with reactions := inserted, nextLikeId := db.nextLikeId + 1 })
      | some like =>
          if like.reaction = reaction then
            let remaining := db.reactions.filter (fun r => r.id ≠ like.id)
            (⟨200, [("status", JVal.s "reaction removed")]⟩,
             { db with reactions := remaining })
          else
            let changed : Like := { like with reaction := reaction }
            let updated :=
              db.reactions.map (fun r => if r.id = like.id then changed else r)
            (⟨200, likeSerializer changed⟩, { db with reactions := updated })

/-- `post.likes` related manager: the reaction rows whose FK is the post. -/
def postReactions (db : DBState) (postId : Nat) : List Like :=
  db.reactions.filter (fun r => r.post = postId)

/-- `post.likes.filter(reaction=Like.LIKE).count()`. -/
def likesCount (db : DBState) (postId : Nat) : Nat :=
  ((postReactions db postId).filter (fun r => r.reaction = Like.LIKE)).length

/-- `post.likes.filter(reaction=Like.DISLIKE).count()`. -/
def dislikesCount (db : DBState) (postId : Nat) : Nat :=
  ((postReactions db postId).filter
    (fun r => r.reaction = Like.DISLIKE)).length

/-- `post.comments.count()`. -/
def commentsCount (db : DBState) (postId : Nat) : Nat :=
  (db.comments.filter (fun c => c.post = postId)).length

/-- `post.likes.count()`: all reaction rows for the post. -/
def totalReactions (db : DBState) (postId : Nat) : Nat :=
  (postReactions db postId).length

/-- `posts.views.post_stats(request, post_id)`.  Read-only: takes the store
and returns only the response. -/
def post_stats (db : DBState) (postId : Nat) : HttpResponse :=
  if postExists db postId = false then
    ⟨404, notFoundBody⟩
  else
    ⟨200,
     [("likes_count", JVal.n (likesCount db postId)),
      ("dislikes_count", JVal.n (dislikesCount db postId)),
      ("comments_count", JVal.n (commentsCount db postId)),
      ("total_reactions", JVal.n (totalReactions db postId))]⟩

/-! ### Invariants and derived notions -/

/-- The reaction rows stored for one `(user, post)` pair. -/
def pairRows (rs : List Like) (u p : Nat) : List Like :=
  rs.filter (fun r => r.user = u && r.post = p)

/-- How many reaction rows the store holds for one `(user, post)` pair. -/
def pairCount (rs : List Like) (u p : Nat) : Nat :=
  (pairRows rs u p).length

/-- No two rows in the list concern the same `(user, post)` pair: the
`unique_together = ['user', 'post']` constraint of `Like.Meta`. -/
def PairUniq (rs : List Like) : Prop :=
  rs.Pairwise (fun a b => ¬(a.user = b.user ∧ a.post = b.post))

/-- Primary keys are pairwise distinct: the auto `id` column of `Like`. -/
def IdUniq (rs : List Like) : Prop :=
  rs.Pairwise (fun a b => a.id ≠ b.id)

/-- Store well-formedness: the `unique_together` constraint on `Like`, plus
primary-key well-formedness (ids pairwise distinct and below the next auto
id) that any relational store guarantees. -/
def WF (db : DBState) : Prop :=
  PairUniq db.reactions ∧ IdUniq db.reactions ∧
    ∀ r ∈ db.reactions, r.id < db.nextLikeId

/-- Every stored kind is one of the `REACTION_CHOICES` of `models.py`. -/
def KindsValid (db : DBState) : Prop :=
  ∀ r ∈ db.reactions, r.reaction = Like.LIKE ∨ r.reaction = Like.DISLIKE

/-- One request to `toggle_like`: the acting user, the target post, and the
optional `reaction` field of the JSON body. -/
structure Call where
  user : Nat
  post : Nat
  reaction : Option String
deriving DecidableEq, Repr

/-- A finite sequence of `toggle_like` requests applied to the store. -/
def toggleSeq (db : DBState) (calls : List Call) : DBState :=
  calls.foldl (fun s c => (toggle_like s c.user c.post c.reaction).2) db

/-! ### List helper lemmas -/

theorem find?_split {α : Type} {q : α → Bool} {l : List α} {a : α}
    (h : l.find? q = some a) :
    ∃ l₁ l₂, l = l₁ ++ a :: l₂ ∧ ∀ x ∈ l₁, q x = false := by
  induction l with
  | nil => simp [List.find?] at h
  | cons b t ih =>
    by_cases hb : q b
    · rw [List.find?_cons_of_pos t hb] at h
      have hba := Option.some.inj h
      exact ⟨[], t, by simp [← hba], by simp⟩
    · rw [List.find?_cons_of_neg t hb] at h
      obtain ⟨l₁, l₂, hl, hq⟩ := ih h
      refine ⟨b :: l₁, l₂, by simp [hl], ?_⟩
      intro x hx
      rcases List.mem_cons.mp hx with hx | hx
      · simpa [hx] using hb
      · exact hq x hx

theorem pairwise_split_facts {α : Type} {R : α → α → Prop} {l₁ l₂ : List α}
    {a : α} (h : List.Pairwise R (l₁ ++ a :: l₂)) :
    (∀ x ∈ l₁, R x a) ∧ (∀ x ∈ l₂, R a x) ∧ List.Pairwise R (l₁ ++ l₂) := by
  rw [List.pairwise_append] at h
  obtain ⟨h₁, h₂, h₃⟩ := h
  rw [List.pairwise_cons] at h₂
  refine ⟨fun x hx => h₃ x hx a (by simp), h₂.1, ?_⟩
  rw [List.pairwise_append]
  exact ⟨h₁, h₂.2, fun x hx b hb => h₃ x hx b (by simp [hb])⟩

theorem pairwise_replace_middle {α : Type} {R : α → α → Prop}
    {l₁ l₂ : List α} (a b : α)
    (hab : ∀ x, (R x a → R x b) ∧ (R a x → R b x))
    (h : List.Pairwise R (l₁ ++ a :: l₂)) :
    List.Pairwise R (l₁ ++ b :: l₂) := by
  rw [List.pairwise_append] at h ⊢
  obtain ⟨h₁, h₂, h₃⟩ := h
  rw [List.pairwise_cons] at h₂ ⊢
  refine ⟨h₁, ⟨fun x hx => (hab x).2 (h₂.1 x hx), h₂.2⟩, ?_⟩
  intro x hx c hc
  rcases List.mem_cons.mp hc with hc | hc
  · exact hc ▸ (hab x).1 (h₃ x hx a (by simp))
  · exact h₃ x hx c (by simp [hc])

theorem filter_ne_id_split {l₁ l₂ : List Like} {r : Like}
    (h₁ : ∀ x ∈ l₁, x.id ≠ r.id) (h₂ : ∀ x ∈ l₂, x.id ≠ r.id) :
    (l₁ ++ r :: l₂).filter (fun x => x.id ≠ r.id) = l₁ ++ l₂ := by
  rw [List.filter_append, List.filter_cons]
  have hr : ¬(decide (r.id ≠ r.id) = true) := by simp
  rw [if_neg hr]
  rw [List.filter_eq_self.mpr (by simpa using h₁),
      List.filter_eq_self.mpr (by simpa using h₂)]

theorem map_update_split {l₁ l₂ : List Like} {r c : Like}
    (h₁ : ∀ x ∈ l₁, x.id ≠ r.id) (h₂ : ∀ x ∈ l₂, x.id ≠ r.id) :
    (l₁ ++ r :: l₂).map (fun x => if x.id = r.id then c else x) =
      l₁ ++ c :: l₂ := by
  rw [List.map_append, List.map_cons, if_pos rfl]
  rw [List.map_congr_left (fun x hx => if_neg (h₁ x hx)),
      List.map_congr_left (fun x hx => if_neg (h₂ x hx))]
  simp

theorem pairCount_le_one {rs : List Like} (h : PairUniq rs) (u p : Nat) :
    pairCount rs u p ≤ 1 := by
  induction rs with
  | nil => simp [pairCount, pairRows]
  | cons a t ih =>
    rw [PairUniq, List.pairwise_cons] at h
    have ht := ih h.2
    simp only [pairCount, pairRows, List.filter_cons] at ht ⊢
    by_cases hb : (a.user = u && a.post = p) = true
    · rw [if_pos hb]
      have hmatch : a.user = u ∧ a.post = p := by simpa using hb
      have hnil : t.filter (fun r => r.user = u && r.post = p) = [] := by
        rw [List.filter_eq_nil_iff]
        intro x hx hxq
        have hx2 : x.user = u ∧ x.post = p := by simpa using hxq
        exact (h.1 x hx) ⟨hmatch.1.trans hx2.1.symm, hmatch.2.trans hx2.2.symm⟩
      rw [hnil]
      simp
    · rw [if_neg hb]
      exact ht

theorem length_split_by_kind {rs : List Like}
    (h : ∀ r ∈ rs, r.reaction = Like.LIKE ∨ r.reaction = Like.DISLIKE) :
    rs.length = (rs.filter (fun r => r.reaction = Like.LIKE)).length +
      (rs.filter (fun r => r.reaction = Like.DISLIKE)).length := by
  induction rs with
  | nil => simp
  | cons a t ih =>
    have ht := ih (fun r hr => h r (List.mem_cons_of_mem a hr))
    have hne : Like.LIKE ≠ Like.DISLIKE := by decide
    rcases h a (by simp) with ha | ha <;>
      simp [List.filter_cons, ha, hne, hne.symm, ht] <;> omega

/-! ### Branch characterizations of `toggle_like` -/

theorem toggle_like_missing_post {db : DBState} {p : Nat} (u : Nat)
    (kf : Option String) (hp : postExists db p = false) :
    toggle_like db u p kf = (⟨404, notFoundBody⟩, db) := by
  simp [toggle_like, hp]

theorem toggle_like_invalid_kind {db : DBState} {p : Nat} {k : String}
    (u : Nat) (hp : postExists db p = true)
    (h1 : k ≠ Like.LIKE) (h2 : k ≠ Like.DISLIKE) :
    toggle_like db u p (some k) = (⟨400, invalidReactionBody⟩, db) := by
  simp [toggle_like, hp, h1, h2]

theorem toggle_like_create {db : DBState} {u p : Nat} {k : String}
    (hp : postExists db p = true) (hk : k = Like.LIKE ∨ k = Like.DISLIKE)
    (hf : findReaction db u p = none) :
    toggle_like db u p (some k) =
      (⟨200, likeSerializer ⟨db.nextLikeId, u, p, k, db.now⟩⟩,
       ⟨db.posts, db.reactions ++ [⟨db.nextLikeId, u, p, k, db.now⟩],
        db.comments, db.nextLikeId + 1, db.now⟩) := by
  rcases hk with hk | hk <;> subst hk <;>
    simp [toggle_like, hp, hf, Like.LIKE, Like.DISLIKE]

theorem toggle_like_remove {db : DBState} {u p : Nat} {k : String} {r : Like}
    (hp : postExists db p = true) (hk : k = Like.LIKE ∨ k = Like.DISLIKE)
    (hf : findReaction db u p = some r) (hr : r.reaction = k) :
    toggle_like db u p (some k) =
      (⟨200, [("status", JVal.s "reaction removed")]⟩,
       ⟨db.posts, db.reactions.filter (fun x => x.id ≠ r.id),
        db.comments, db.nextLikeId, db.now⟩) := by
  rcases hk with hk | hk <;> subst hk <;>
    simp [toggle_like, hp, hf, hr, Like.LIKE, Like.DISLIKE]

theorem toggle_like_change {db : DBState} {u p : Nat} {k : String} {r : Like}
    (hp : postExists db p = true) (hk : k = Like.LIKE ∨ k = Like.DISLIKE)
    (hf : findReaction db u p = some r) (hr : r.reaction ≠ k) :
    toggle_like db u p (some k) =
      (⟨200, likeSerializer { r with reaction := k }⟩,
       ⟨db.posts,
        db.reactions.map
          (fun x => if x.id = r.id then { r with reaction := k } else x),
        db.comments, db.nextLikeId, db.now⟩) := by
  rcases hk with hk | hk <;> subst hk <;>
    simp [toggle_like, hp, hf, Like.LIKE, Like.DISLIKE] <;>
    exact fun h => absurd h hr

theorem toggle_like_none_arg (db : DBState) (u p : Nat) :
    toggle_like db u p none = toggle_like db u p (some Like.LIKE) := rfl

/-! ### Facts about `findReaction` and preservation of well-formedness -/

theorem findReaction_none_iff {db : DBState} {u p : Nat} :
    findReaction db u p = none ↔
      ∀ r ∈ db.reactions, ¬(r.user = u ∧ r.post = p) := by
  constructor
  · intro h r hr
    have := List.find?_eq_none.mp h r hr
    simpa using this
  · intro h
    rw [findReaction, List.find?_eq_none]
    intro x hx
    simpa using h x hx

theorem findReaction_some_facts {db : DBState} {u p : Nat} {r : Like}
    (h : findReaction db u p = some r) :
    r ∈ db.reactions ∧ r.user = u ∧ r.post = p := by
  refine ⟨List.mem_of_find?_eq_some h, ?_⟩
  have := List.find?_some h
  simpa using this

theorem findReaction_split_WF {db : DBState} {u p : Nat} {r : Like}
    (hwf : WF db) (h : findReaction db u p = some r) :
    ∃ l₁ l₂, db.reactions = l₁ ++ r :: l₂ ∧
      (∀ x ∈ l₁, x.id ≠ r.id) ∧ (∀ x ∈ l₂, x.id ≠ r.id) ∧
      (∀ x ∈ l₁, (x.user = u && x.post = p) = false) ∧
      (∀ x ∈ l₂, (x.user = u && x.post = p) = false) ∧
      r.user = u ∧ r.post = p := by
  obtain ⟨l₁, l₂, hl, hq⟩ := find?_split h
  obtain ⟨hru, hrp⟩ := (findReaction_some_facts h).2
  have hid : List.Pairwise (fun a b : Like => a.id ≠ b.id) (l₁ ++ r :: l₂) :=
    hl ▸ hwf.2.1
  have hpair :
      List.Pairwise (fun a b : Like => ¬(a.user = b.user ∧ a.post = b.post))
        (l₁ ++ r :: l₂) := hl ▸ hwf.1
  obtain ⟨hid₁, hid₂, -⟩ := pairwise_split_facts hid
  obtain ⟨-, hpair₂, -⟩ := pairwise_split_facts hpair
  refine ⟨l₁, l₂, hl, hid₁, fun x hx => (hid₂ x hx).symm, hq, ?_, hru, hrp⟩
  intro x hx
  have hx2 := hpair₂ x hx
  rw [Bool.eq_false_iff]
  simp only [ne_eq, Bool.and_eq_true, decide_eq_true_eq]
  intro hcontra
  exact hx2 ⟨hru.trans hcontra.1.symm, hrp.trans hcontra.2.symm⟩

theorem WF_toggle_like (db : DBState) (hwf : WF db) (u p : Nat)
    (kf : Option String) : WF (toggle_like db u p kf).2 := by
  have main : ∀ k : String, WF (toggle_like db u p (some k)).2 := by
    intro k
    cases hp : postExists db p with
    | false => rw [toggle_like_missing_post u (some k) hp]; exact hwf
    | true =>
      by_cases hk : k = Like.LIKE ∨ k = Like.DISLIKE
      · cases hfind : findReaction db u p with
        | none =>
          rw [toggle_like_create hp hk hfind]
          obtain ⟨h1, h2, h3⟩ := hwf
          have hfr := findReaction_none_iff.mp hfind
          refine ⟨?_, ?_, ?_⟩
          · rw [PairUniq, List.pairwise_append]
            refine ⟨h1, List.pairwise_singleton _ _, ?_⟩
            intro a ha b hb
            rw [List.mem_singleton] at hb
            subst hb
            exact hfr a ha
          · rw [IdUniq, List.pairwise_append]
            refine ⟨h2, List.pairwise_singleton _ _, ?_⟩
            intro a ha b hb
            rw [List.mem_singleton] at hb
            subst hb
            exact Nat.ne_of_lt (h3 a ha)
          · intro x hx
            rcases List.mem_append.mp hx with hx | hx
            · exact Nat.lt_succ_of_lt (h3 x hx)
            · rw [List.mem_singleton] at hx
              subst hx
              exact Nat.lt_succ_self _
        | some r =>
          by_cases hr : r.reaction = k
          · rw [toggle_like_remove hp hk hfind hr]
            obtain ⟨h1, h2, h3⟩ := hwf
            refine ⟨List.Pairwise.sublist (List.filter_sublist _) h1,
                    List.Pairwise.sublist (List.filter_sublist _) h2, ?_⟩
            intro x hx
            exact h3 x (List.mem_filter.mp hx).1
          · rw [toggle_like_change hp hk hfind hr]
            obtain ⟨l₁, l₂, hl, hid₁, hid₂, -, -, -, -⟩ :=
              findReaction_split_WF hwf hfind
            rw [hl, map_update_split hid₁ hid₂]
            obtain ⟨h1, h2, h3⟩ := hwf
            have h1' : List.Pairwise
                (fun a b : Like => ¬(a.user = b.user ∧ a.post = b.post))
                (l₁ ++ r :: l₂) := hl ▸ h1
            have h2' : List.Pairwise (fun a b : Like => a.id ≠ b.id)
                (l₁ ++ r :: l₂) := hl ▸ h2
            refine ⟨?_, ?_, ?_⟩
            · exact pairwise_replace_middle r { r with reaction := k }
                (fun x => ⟨id, id⟩) h1'
            · exact pairwise_replace_middle r { r with reaction := k }
                (fun x => ⟨id, id⟩) h2'
            · intro x hx
              have hmem : ∀ y ∈ l₁ ++ r :: l₂, y.id < db.nextLikeId := by
                intro y hy
                exact h3 y (hl ▸ hy)
              rcases List.mem_append.mp hx with hx | hx
              · exact hmem x (List.mem_append.mpr (Or.inl hx))
              · rcases List.mem_cons.mp hx with hx | hx
                · subst hx
                  exact hmem r (List.mem_append.mpr (Or.inr (by simp)))
                · exact hmem x (List.mem_append.mpr (Or.inr (by simp [hx])))
      · push_neg at hk
        rw [toggle_like_invalid_kind u hp hk.1 hk.2]
        exact hwf
  cases kf with
  | none => rw [toggle_like_none_arg]; exact main Like.LIKE
  | some k => exact main k

theorem find?_pair_append_single {rs : List Like} {u p : Nat} (new : Like)
    (hf : rs.find? (fun x => x.user = u && x.post = p) = none)
    (hnew : new.user = u ∧ new.post = p) :
    (rs ++ [new]).find? (fun x => x.user = u && x.post = p) = some new := by
  rw [List.find?_append, hf]
  simp [hnew.1, hnew.2]

theorem find?_pair_removed {l₁ l₂ : List Like} {u p : Nat}
    (h₁ : ∀ x ∈ l₁, (x.user = u && x.post = p) = false)
    (h₂ : ∀ x ∈ l₂, (x.user = u && x.post = p) = false) :
    (l₁ ++ l₂).find? (fun x => x.user = u && x.post = p) = none := by
  rw [List.find?_eq_none]
  intro x hx
  rcases List.mem_append.mp hx with hx | hx
  · simp [h₁ x hx]
  · simp [h₂ x hx]

theorem find?_pair_changed {l₁ l₂ : List Like} {u p : Nat} (c : Like)
    (h₁ : ∀ x ∈ l₁, (x.user = u && x.post = p) = false)
    (hc : c.user = u ∧ c.post = p) :
    (l₁ ++ c :: l₂).find? (fun x => x.user = u && x.post = p) = some c := by
  rw [List.find?_append, List.find?_eq_none.mpr (fun x hx => by simp [h₁ x hx])]
  rw [List.find?_cons_of_pos _ (by simp [hc.1, hc.2])]
  rfl

theorem toggle_like_code_200 {db : DBState} {u p : Nat} {k : String}
    (hp : postExists db p = true) (hk : k = Like.LIKE ∨ k = Like.DISLIKE) :
    (toggle_like db u p (some k)).1.code = 200 := by
  cases hfind : findReaction db u p with
  | none => rw [toggle_like_create hp hk hfind]
  | some r =>
    by_cases hr : r.reaction = k
    · rw [toggle_like_remove hp hk hfind hr]
    · rw [toggle_like_change hp hk hfind hr]

/-! ### Concrete fixtures -/

/-- A post with id 1 by user 1. -/
def post1 : Post := ⟨1, 1, "first post", 0, none, none, ""⟩

/-- A store holding one post and no reactions or comments. -/
def db1 : DBState := ⟨[post1], [], [], 0, 0⟩

/-- A stored `like` reaction of user 1 on post 1. -/
def like11 : Like := ⟨0, 1, 1, "like", 0⟩

/-- A store holding one post and one `like` reaction by user 1. -/
def db2 : DBState := ⟨[post1], [like11], [], 1, 1⟩

/-- A store realizing the spec example: post 1 with two likes, one dislike
and two comments. -/
def dbStats : DBState :=
  ⟨[post1],
   [⟨0, 1, 1, "like", 0⟩, ⟨1, 2, 1, "like", 0⟩, ⟨2, 3, 1, "dislike", 0⟩],
   [⟨0, 2, 1, "nice", 1⟩, ⟨1, 3, 1, "cool", 2⟩], 3, 3⟩

/-! ### Claim theorems -/

/-- C1: for an existing post and a requested kind in `{like, dislike}`,
`toggle_like` follows the three-branch state machine on the pair's current
stored reaction: no stored reaction → a reaction with the requested kind is
created; stored kind equals the requested kind → the reaction is deleted;
stored kind differs → the stored reaction's kind is updated in place. -/
theorem toggle_reaction_state_machine (db : DBState) (u p : Nat) (k : String)
    (hwf : WF db) (hp : postExists db p = true)
    (hk : k = Like.LIKE ∨ k = Like.DISLIKE) :
    (findReaction db u p = none →
      findReaction (toggle_like db u p (some k)).2 u p =
        some ⟨db.nextLikeId, u, p, k, db.now⟩) ∧
    (∀ r, findReaction db u p = some r → r.reaction = k →
      findReaction (toggle_like db u p (some k)).2 u p = none) ∧
    (∀ r, findReaction db u p = some r → r.reaction ≠ k →
      findReaction (toggle_like db u p (some k)).2 u p =
        some { r with reaction := k }) := by
  refine ⟨?_, ?_, ?_⟩
  · intro hf
    rw [toggle_like_create hp hk hf]
    exact find?_pair_append_single _ hf ⟨rfl, rfl⟩
  · intro r hf hr
    rw [toggle_like_remove hp hk hf hr]
    obtain ⟨l₁, l₂, hl, hid₁, hid₂, hq₁, hq₂, hru, hrp⟩ :=
      findReaction_split_WF hwf hf
    show (db.reactions.filter fun x => x.id ≠ r.id).find?
      (fun x => x.user = u && x.post = p) = none
    rw [hl, filter_ne_id_split hid₁ hid₂]
    exact find?_pair_removed hq₁ hq₂
  · intro r hf hr
    rw [toggle_like_change hp hk hf hr]
    obtain ⟨l₁, l₂, hl, hid₁, hid₂, hq₁, hq₂, hru, hrp⟩ :=
      findReaction_split_WF hwf hf
    show (db.reactions.map fun x =>
        if x.id = r.id then { r with reaction := k } else x).find?
      (fun x => x.user = u && x.post = p) = some { r with reaction := k }
    rw [hl, map_update_split hid₁ hid₂]
    exact find?_pair_changed _ hq₁ ⟨hru, hrp⟩

/-- Witness for C1: on the empty store, user 1 toggling `like` on post 1
creates the reaction row. -/
theorem toggle_reaction_state_machine_witness :
    findReaction (toggle_like db1 1 1 (some Like.LIKE)).2 1 1 =
      some ⟨0, 1, 1, Like.LIKE, 0⟩ :=
  (toggle_reaction_state_machine db1 1 1 Like.LIKE
    (by unfold WF PairUniq IdUniq; decide) (by decide)
    (Or.inl rfl)).1 (by decide)

/-- C2: starting from a well-formed store, after any finite sequence of
`toggle_like` calls at most one reaction row exists for every
`(user, post)` pair, and well-formedness (hence the uniqueness invariant)
is preserved throughout. -/
theorem toggle_seq_invariant (db : DBState) (hwf : WF db)
    (calls : List Call) (u p : Nat) :
    pairCount (toggleSeq db calls).reactions u p ≤ 1 ∧
    WF (toggleSeq db calls) := by
  have hW : WF (toggleSeq db calls) := by
    induction calls generalizing db with
    | nil => exact hwf
    | cons c t ih =>
      have step := WF_toggle_like db hwf c.user c.post c.reaction
      simp only [toggleSeq, List.foldl_cons]
      exact ih _ step
  exact ⟨pairCount_le_one hW.1 u p, hW⟩

/-- Witness for C2: two same-kind toggles on the empty store leave at most
one row for the pair. -/
theorem toggle_seq_invariant_witness :
    pairCount (toggleSeq db1 [⟨1, 1, some "like"⟩, ⟨1, 1, some "like"⟩]).reactions
      1 1 ≤ 1 ∧
    WF (toggleSeq db1 [⟨1, 1, some "like"⟩, ⟨1, 1, some "like"⟩]) :=
  toggle_seq_invariant db1 (by unfold WF PairUniq IdUniq; decide)
    [⟨1, 1, some "like"⟩, ⟨1, 1, some "like"⟩] 1 1

/-- C3: for an existing post, `post_stats` returns 200 with the four counts
computed from the stored state; the total equals likes plus dislikes
(equivalently the number of reaction rows for the post), and a post with no
reactions and no comments reports four zeros. -/
theorem post_stats_counts (db : DBState) (p : Nat)
    (hp : postExists db p = true) (hkv : KindsValid db) :
    post_stats db p =
      ⟨200, [("likes_count", JVal.n (likesCount db p)),
             ("dislikes_count", JVal.n (dislikesCount db p)),
             ("comments_count", JVal.n (commentsCount db p)),
             ("total_reactions", JVal.n (totalReactions db p))]⟩ ∧
    totalReactions db p = likesCount db p + dislikesCount db p ∧
    (postReactions db p = [] → db.comments.filter (fun c => c.post = p) = [] →
      likesCount db p = 0 ∧ dislikesCount db p = 0 ∧
      commentsCount db p = 0 ∧ totalReactions db p = 0) := by
  refine ⟨by simp [post_stats, hp], ?_, ?_⟩
  · have hv : ∀ r ∈ postReactions db p,
        r.reaction = Like.LIKE ∨ r.reaction = Like.DISLIKE :=
      fun r hr => hkv r (List.mem_filter.mp hr).1
    exact length_split_by_kind hv
  · intro h1 h2
    simp [likesCount, dislikesCount, commentsCount, totalReactions, h1, h2]

/-- Witness for C3: the spec example — two likes, one dislike, two
comments — yields counts 2, 1, 2 and total 3. -/
theorem post_stats_counts_witness :
    post_stats dbStats 1 =
      ⟨200, [("likes_count", JVal.n (likesCount dbStats 1)),
             ("dislikes_count", JVal.n (dislikesCount dbStats 1)),
             ("comments_count", JVal.n (commentsCount dbStats 1)),
             ("total_reactions", JVal.n (totalReactions dbStats 1))]⟩ ∧
    totalReactions dbStats 1 = likesCount dbStats 1 + dislikesCount dbStats 1 ∧
    (postReactions dbStats 1 = [] →
      dbStats.comments.filter (fun c => c.post = 1) = [] →
      likesCount dbStats 1 = 0 ∧ dislikesCount dbStats 1 = 0 ∧
      commentsCount dbStats 1 = 0 ∧ totalReactions dbStats 1 = 0) :=
  post_stats_counts dbStats 1 (by decide) (by unfold KindsValid; decide)

/-- C4 counterexample: a successful toggle (the `created` transition on an
empty store, and the `removed` transition on a store with a matching like)
returns 200, yet the `created` body carries no `status` field at all, and
the `removed` body's status value is the literal `"reaction removed"`, not
`removed` — refuting the claimed `{status: created|changed|removed,
reaction: ...}` body. -/
theorem toggle_claimed_body_cex :
    (toggle_like db1 1 1 (some Like.LIKE)).1.code = 200 ∧
    ((toggle_like db1 1 1 (some Like.LIKE)).1.body.lookup "status") = none ∧
    (toggle_like db2 1 1 (some Like.LIKE)).1.code = 200 ∧
    ((toggle_like db2 1 1 (some Like.LIKE)).1.body.lookup "status") =
      some (JVal.s "reaction removed") ∧
    ((toggle_like db2 1 1 (some Like.LIKE)).1.body.lookup "reaction") =
      none := by decide

/-- C4 (amended): every successful toggle returns HTTP 200; on the
`created` and `changed` transitions the body is the serialized reaction —
fields id, user, post, reaction, created_at, with no `status` field — and
on the `removed` transition the body is exactly
`{status: "reaction removed"}`, with no reaction payload. -/
theorem toggle_response_shape (db : DBState) (u p : Nat) (k : String)
    (hp : postExists db p = true) (hk : k = Like.LIKE ∨ k = Like.DISLIKE) :
    (toggle_like db u p (some k)).1.code = 200 ∧
    (findReaction db u p = none →
      (toggle_like db u p (some k)).1.body =
        likeSerializer ⟨db.nextLikeId, u, p, k, db.now⟩) ∧
    (∀ r, findReaction db u p = some r → r.reaction = k →
      (toggle_like db u p (some k)).1.body =
        [("status", JVal.s "reaction removed")]) ∧
    (∀ r, findReaction db u p = some r → r.reaction ≠ k →
      (toggle_like db u p (some k)).1.body =
        likeSerializer { r with reaction := k }) := by
  refine ⟨toggle_like_code_200 hp hk, ?_, ?_, ?_⟩
  · intro hf
    rw [toggle_like_create hp hk hf]
  · intro r hf hr
    rw [toggle_like_remove hp hk hf hr]
  · intro r hf hr
    rw [toggle_like_change hp hk hf hr]

/-- Witness for the amended C4 at the `created` transition on the empty
store. -/
theorem toggle_response_shape_witness :
    (toggle_like db1 1 1 (some Like.LIKE)).1.code = 200 ∧
    (findReaction db1 1 1 = none →
      (toggle_like db1 1 1 (some Like.LIKE)).1.body =
        likeSerializer ⟨db1.nextLikeId, 1, 1, Like.LIKE, db1.now⟩) ∧
    (∀ r, findReaction db1 1 1 = some r → r.reaction = Like.LIKE →
      (toggle_like db1 1 1 (some Like.LIKE)).1.body =
        [("status", JVal.s "reaction removed")]) ∧
    (∀ r, findReaction db1 1 1 = some r → r.reaction ≠ Like.LIKE →
      (toggle_like db1 1 1 (some Like.LIKE)).1.body =
        likeSerializer { r with reaction := Like.LIKE }) :=
  toggle_response_shape db1 1 1 Like.LIKE (by decide) (Or.inl rfl)

/-- C5: a toggle with a present but invalid kind on an existing post
returns 400 with the invalid-reaction error, leaves the store untouched,
and hence leaves every stats result unchanged. -/
theorem toggle_invalid_kind_no_change (db : DBState) (u p : Nat) (k : String)
    (hp : postExists db p = true)
    (h1 : k ≠ Like.LIKE) (h2 : k ≠ Like.DISLIKE) :
    (toggle_like db u p (some k)).1 = ⟨400, invalidReactionBody⟩ ∧
    (toggle_like db u p (some k)).2 = db ∧
    ∀ q, post_stats (toggle_like db u p (some k)).2 q = post_stats db q := by
  rw [toggle_like_invalid_kind u hp h1 h2]
  exact ⟨rfl, rfl, fun q => rfl⟩

/-- Witness for C5: toggling with kind `"angry"` on an existing post. -/
theorem toggle_invalid_kind_no_change_witness :
    (toggle_like db1 1 1 (some "angry")).1 = ⟨400, invalidReactionBody⟩ ∧
    (toggle_like db1 1 1 (some "angry")).2 = db1 ∧
    ∀ q, post_stats (toggle_like db1 1 1 (some "angry")).2 q =
      post_stats db1 q :=
  toggle_invalid_kind_no_change db1 1 1 "angry" (by decide) (by decide)
    (by decide)

/-- C6: when the post does not exist, `toggle_like` returns 404 and leaves
the store untouched, and `post_stats` returns 404 (being read-only, it
never changes state). -/
theorem missing_post_not_found (db : DBState) (u p : Nat) (kf : Option String)
    (hp : postExists db p = false) :
    (toggle_like db u p kf).1 = ⟨404, notFoundBody⟩ ∧
    (toggle_like db u p kf).2 = db ∧
    post_stats db p = ⟨404, notFoundBody⟩ := by
  rw [toggle_like_missing_post u kf hp]
  exact ⟨rfl, rfl, by simp [post_stats, hp]⟩

/-- Witness for C6: post 2 does not exist in the one-post store. -/
theorem missing_post_not_found_witness :
    (toggle_like db1 1 2 (some "like")).1 = ⟨404, notFoundBody⟩ ∧
    (toggle_like db1 1 2 (some "like")).2 = db1 ∧
    post_stats db1 2 = ⟨404, notFoundBody⟩ :=
  missing_post_not_found db1 1 2 (some "like") (by decide)

/-- C8: when the `reaction` field is absent from the request body, the
handler behaves exactly as if `"like"` had been requested, and on an
existing post the call succeeds (200) rather than being rejected. -/
theorem toggle_absent_field_defaults_like (db : DBState) (u p : Nat)
    (hp : postExists db p = true) :
    toggle_like db u p none = toggle_like db u p (some Like.LIKE) ∧
    (toggle_like db u p none).1.code = 200 := by
  refine ⟨toggle_like_none_arg db u p, ?_⟩
  rw [toggle_like_none_arg]
  exact toggle_like_code_200 hp (Or.inl rfl)

/-- Witness for C8 on the one-post store. -/
theorem toggle_absent_field_defaults_like_witness :
    toggle_like db1 1 1 none = toggle_like db1 1 1 (some Like.LIKE) ∧
    (toggle_like db1 1 1 none).1.code = 200 :=
  toggle_absent_field_defaults_like db1 1 1 (by decide)

/-- C10: when the post is missing and the kind is simultaneously invalid,
the call fails with 404 (post existence is checked before the kind), never
with 400. -/
theorem missing_post_checked_before_kind (db : DBState) (u p : Nat)
    (k : String) (hp : postExists db p = false)
    (h1 : k ≠ Like.LIKE) (h2 : k ≠ Like.DISLIKE) :
    (toggle_like db u p (some k)).1 = ⟨404, notFoundBody⟩ ∧
    (toggle_like db u p (some k)).1.code ≠ 400 := by
  rw [toggle_like_missing_post u (some k) hp]
  exact ⟨rfl, by simp⟩

/-- Witness for C10: missing post 2 together with invalid kind `"angry"`. -/
theorem missing_post_checked_before_kind_witness :
    (toggle_like db1 1 2 (some "angry")).1 = ⟨404, notFoundBody⟩ ∧
    (toggle_like db1 1 2 (some "angry")).1.code ≠ 400 :=
  missing_post_checked_before_kind db1 1 2 "angry" (by decide) (by decide)
    (by decide)

theorem pair_pred_false {u p u2 p2 : Nat} (h : ¬(u2 = u ∧ p2 = p))
    (x : Like) (hxu : x.user = u) (hxp : x.post = p) :
    (x.user = u2 && x.post = p2) = false := by
  rw [Bool.eq_false_iff]
  simp only [ne_eq, Bool.and_eq_true, decide_eq_true_eq]
  intro hc
  exact h ⟨hc.1.symm.trans hxu, hc.2.symm.trans hxp⟩

/-- C7: a successful toggle leaves the posts and comments tables unchanged,
leaves the reaction rows of every other `(user, post)` pair unchanged, and
performs exactly one write on the acting pair's rows: one insert, one
delete, or one in-place update of a single row. -/
theorem toggle_single_write_frame (db : DBState) (u p : Nat) (k : String)
    (hwf : WF db) (hp : postExists db p = true)
    (hk : k = Like.LIKE ∨ k = Like.DISLIKE) :
    (toggle_like db u p (some k)).2.posts = db.posts ∧
    (toggle_like db u p (some k)).2.comments = db.comments ∧
    (∀ u2 p2, ¬(u2 = u ∧ p2 = p) →
      pairRows (toggle_like db u p (some k)).2.reactions u2 p2 =
        pairRows db.reactions u2 p2) ∧
    ((∃ r : Like, r.user = u ∧ r.post = p ∧
        (toggle_like db u p (some k)).2.reactions = db.reactions ++ [r]) ∨
     (∃ l₁ l₂, ∃ r : Like, r.user = u ∧ r.post = p ∧
        db.reactions = l₁ ++ r :: l₂ ∧
        (toggle_like db u p (some k)).2.reactions = l₁ ++ l₂) ∨
     (∃ l₁ l₂, ∃ r c : Like, r.user = u ∧ r.post = p ∧
        c.user = u ∧ c.post = p ∧ c.id = r.id ∧
        db.reactions = l₁ ++ r :: l₂ ∧
        (toggle_like db u p (some k)).2.reactions = l₁ ++ c :: l₂)) := by
  cases hfind : findReaction db u p with
  | none =>
    rw [toggle_like_create hp hk hfind]
    refine ⟨rfl, rfl, ?_, Or.inl ⟨_, rfl, rfl, rfl⟩⟩
    intro u2 p2 h
    show (db.reactions ++
      [(⟨db.nextLikeId, u, p, k, db.now⟩ : Like)]).filter
        (fun x => x.user = u2 && x.post = p2) = pairRows db.reactions u2 p2
    rw [List.filter_append]
    rw [List.filter_cons]
    rw [if_neg (by simp [pair_pred_false h ⟨db.nextLikeId, u, p, k, db.now⟩
      rfl rfl])]
    simp [pairRows]
  | some r =>
    obtain ⟨l₁, l₂, hl, hid₁, hid₂, hq₁, hq₂, hru, hrp⟩ :=
      findReaction_split_WF hwf hfind
    by_cases hr : r.reaction = k
    · rw [toggle_like_remove hp hk hfind hr]
      have hfilter : db.reactions.filter (fun x => x.id ≠ r.id) = l₁ ++ l₂ := by
        rw [hl]; exact filter_ne_id_split hid₁ hid₂
      refine ⟨rfl, rfl, ?_,
        Or.inr (Or.inl ⟨l₁, l₂, r, hru, hrp, hl, hfilter⟩)⟩
      intro u2 p2 h
      show (db.reactions.filter (fun x => x.id ≠ r.id)).filter
        (fun x => x.user = u2 && x.post = p2) = pairRows db.reactions u2 p2
      rw [hfilter, hl, pairRows, List.filter_append, List.filter_append,
        List.filter_cons, if_neg (by simp [pair_pred_false h r hru hrp])]
    · rw [toggle_like_change hp hk hfind hr]
      have hmap : db.reactions.map
          (fun x => if x.id = r.id then { r with reaction := k } else x) =
          l₁ ++ { r with reaction := k } :: l₂ := by
        rw [hl]; exact map_update_split hid₁ hid₂
      refine ⟨rfl, rfl, ?_,
        Or.inr (Or.inr ⟨l₁, l₂, r, { r with reaction := k },
          hru, hrp, hru, hrp, rfl, hl, hmap⟩)⟩
      intro u2 p2 h
      show (db.reactions.map
          (fun x => if x.id = r.id then { r with reaction := k } else x)).filter
        (fun x => x.user = u2 && x.post = p2) = pairRows db.reactions u2 p2
      rw [hmap, hl, pairRows, List.filter_append, List.filter_append,
        List.filter_cons, List.filter_cons,
        if_neg (by simp [pair_pred_false h r hru hrp]),
        if_neg (by simp [pair_pred_false h { r with reaction := k } hru hrp])]

/-- Witness for C7 at the `removed` transition: user 1 un-liking post 1 on
the store holding that single like. -/
theorem toggle_single_write_frame_witness :
    (toggle_like db2 1 1 (some Like.LIKE)).2.posts = db2.posts ∧
    (toggle_like db2 1 1 (some Like.LIKE)).2.comments = db2.comments ∧
    (∀ u2 p2, ¬(u2 = 1 ∧ p2 = 1) →
      pairRows (toggle_like db2 1 1 (some Like.LIKE)).2.reactions u2 p2 =
        pairRows db2.reactions u2 p2) ∧
    ((∃ r : Like, r.user = 1 ∧ r.post = 1 ∧
        (toggle_like db2 1 1 (some Like.LIKE)).2.reactions =
          db2.reactions ++ [r]) ∨
     (∃ l₁ l₂, ∃ r : Like, r.user = 1 ∧ r.post = 1 ∧
        db2.reactions = l₁ ++ r :: l₂ ∧
        (toggle_like db2 1 1 (some Like.LIKE)).2.reactions = l₁ ++ l₂) ∨
     (∃ l₁ l₂, ∃ r c : Like, r.user = 1 ∧ r.post = 1 ∧
        c.user = 1 ∧ c.post = 1 ∧ c.id = r.id ∧
        db2.reactions = l₁ ++ r :: l₂ ∧
        (toggle_like db2 1 1 (some Like.LIKE)).2.reactions = l₁ ++ c :: l₂)) :=
  toggle_single_write_frame db2 1 1 Like.LIKE
    (by unfold WF PairUniq IdUniq; decide) (by decide) (Or.inl rfl)

end SocialNetwork
